import Mathlib

/-
Verification of `python/pyspark/sql/maprpatch.py`: the MapR-DB session adapter
that attaches `loadFromMapRDB`, `saveToMapRDB` and `insertToMapRDB` to a
pyspark session handle.  The module is embedded shallowly: the closure
environment captured by `mapr_session_patch` is an explicit record, the
py4j-level calls made by the write capabilities are recorded as an ordered
trace, and the session handle is its attribute table.
-/

/-- Values placed into a `DataFrameReader` option slot by the adapter:
the table name is a string, the sample size a number (a Python float in the
source, carried around without arithmetic, so modelled as a rational), and
the buffer-writes flag a boolean. -/
inductive OptVal where
  | str (s : String)
  | num (q : ℚ)
  | bool (b : Bool)
  deriving DecidableEq

/-- Opaque schema representation: the adapter only tests a schema for
presence and passes it through, so its content is an abstract tag. -/
abbrev Schema := String

/-- The variables of `mapr_session_patch` captured by the three inner
closures: `default_sample_size` (source default `1000.0`), `default_id_field`
(source default `"_id"`) and `buffer_writes` (source default `True`). -/
structure ClosureEnv where
  default_sample_size : ℚ
  default_id_field : String
  buffer_writes : Bool
  deriving DecidableEq

/-- Bridged Java objects as the adapter observes them: a dataframe reference
(`dataframe._jdf`, opaque), or the return value of the native connector's
save/insert entry points applied to the marshalled arguments. -/
inductive JObj where
  | jdf (name : String)
  | saveResult (d : JObj) (table id_field : String) (create_table bulk_insert : Bool)
  | insertResult (d : JObj) (table id_field : String) (create_table bulk_insert : Bool)
  deriving DecidableEq

/-- The native connector object `mapr_j_session = gw.jvm.MapRDBJavaSession(...)`:
one shared mutable object whose observable state (for this adapter) is its
buffer-writes flag, set through `setBufferWrites`. -/
structure MapRDBJavaSession where
  bufferWrites : Bool
  deriving DecidableEq

/-- State of `original_session.read` after the builder calls the adapter
makes on it: the chosen format, the options in the order `.option` was
called, and an optional schema. -/
structure DataFrameReader where
  fmt : Option String
  options : List (String × OptVal)
  schema : Option Schema
  deriving DecidableEq

/-- `original_session.read`: a fresh reader with no format, options or schema. -/
def sessionRead : DataFrameReader := { fmt := none, options := [], schema := none }

/-- `.format(source)` on a reader. -/
def DataFrameReader.format (r : DataFrameReader) (source : String) : DataFrameReader :=
  { r with fmt := some source }

/-- `.option(key, value)` on a reader: appends one configured option. -/
def DataFrameReader.option (r : DataFrameReader) (key : String) (value : OptVal) :
    DataFrameReader :=
  { r with options := r.options ++ [(key, value)] }

/-- `df_reader.schema(schema)`: sets the reader schema in place (the source
ignores the fluent return value; the mutation is what persists). -/
def DataFrameReader.setSchema (r : DataFrameReader) (s : Schema) : DataFrameReader :=
  { r with schema := some s }

/-- A pyspark DataFrame produced by the read path: `df_reader.load()` hands
the fully configured reader to the native layer, so the result is determined
by that configuration. -/
inductive PyDataFrame where
  | loaded (r : DataFrameReader)
  deriving DecidableEq

/-- `.load()` on a configured reader. -/
def DataFrameReader.load (r : DataFrameReader) : PyDataFrame := .loaded r

/-- A Python value as returned by the attached write capabilities: `None`
(a Python function body with no return statement), or a `DataFrame(jdf, wrapped)`
wrapper around a bridged object. -/
inductive PyRet where
  | pyNone
  | pyDataFrame (jdf : JObj) (sql_ctx : String)
  deriving DecidableEq

/-- Calls issued to the native connector object through the py4j bridge,
in program order within one capability invocation. -/
inductive NativeCall where
  | setBufferWrites (b : Bool)
  | jSave (d : JObj) (table id_field : String) (create_table bulk_insert : Bool)
  | jInsert (d : JObj) (table id_field : String) (create_table bulk_insert : Bool)
  deriving DecidableEq

/-- Whether a native call is one of the two write entry points. -/
def NativeCall.isWriteCall : NativeCall → Bool
  | .jSave _ _ _ _ _ => true
  | .jInsert _ _ _ _ _ => true
  | _ => false

/-- Renames the save entry point to the insert entry point, leaving every
other call unchanged; used to compare the two write capabilities. -/
def NativeCall.asInsertCall : NativeCall → NativeCall
  | .jSave d t i c b => .jInsert d t i c b
  | c => c

/-- Renames a native save result to the corresponding insert result. -/
def JObj.asInsertResult : JObj → JObj
  | .saveResult d t i c b => .insertResult d t i c b
  | o => o

/-- Lifts `JObj.asInsertResult` through a constructed dataframe wrapper. -/
def PyRet.asInsertRet : PyRet → PyRet
  | .pyDataFrame j w => .pyDataFrame j.asInsertResult w
  | r => r

/-- `set_buffer_writes(bw)` from the source.  Its body is the single
statement `buffer_writes=bw`; with no `nonlocal` declaration Python binds a
function-local variable of that name, so the enclosing closure environment
is returned untouched. -/
def set_buffer_writes (env : ClosureEnv) (bw : Bool) : ClosureEnv :=
  let buffer_writes : Bool := bw
  env

/-- The reader configured by `loadFromMapRDB` before `.load()`: format
`com.mapr.db.spark.sql`, then options `tableName`, `sampleSize`,
`bufferWrites` (the captured flag), then `df_reader.schema(schema)` when a
schema was supplied (`if schema:` modelled as presence of the optional). -/
def loadReader (env : ClosureEnv) (table_name : String) (schema : Option Schema)
    (sample_size : ℚ) : DataFrameReader :=
  let df_reader :=
    (((sessionRead.format "com.mapr.db.spark.sql").option "tableName" (.str table_name)).option
        "sampleSize" (.num sample_size)).option "bufferWrites" (.bool env.buffer_writes)
  match schema with
  | some s => df_reader.setSchema s
  | none => df_reader

/-- `loadFromMapRDB(table_name, schema=None, sample_size=default_sample_size)`:
builds the reader and returns `df_reader.load()`.  The Python default for
`sample_size` is the closure's captured default, mirrored here as a binder
default. -/
def loadFromMapRDB (env : ClosureEnv) (table_name : String)
    (schema : Option Schema := none) (sample_size : ℚ := env.default_sample_size) :
    PyDataFrame :=
  (loadReader env table_name schema sample_size).load

/-- Observable outcome of one invocation of a write capability: the native
connector object afterwards, the ordered native calls made, the
`DataFrame(..., wrapped)` value constructed in the body, and the Python
return value of the call. -/
structure WriteOutcome where
  j_session : MapRDBJavaSession
  calls : List NativeCall
  constructed : PyRet
  ret : PyRet
  deriving DecidableEq

/-- `saveToMapRDB(dataframe, table_name, id_field_path=default_id_field,
create_table=False, bulk_insert=False)`: pushes the captured buffer-writes
flag into the native connector with `setBufferWrites`, then calls the native
save; the `DataFrame(..., wrapped)` wrapper built from the native result is
an expression statement, so the function returns `None`. -/
def saveToMapRDB (env : ClosureEnv) (mapr_j_session : MapRDBJavaSession) (wrapped : String)
    (dataframe : JObj) (table_name : String)
    (id_field_path : String := env.default_id_field)
    (create_table : Bool := false) (bulk_insert : Bool := false) : WriteOutcome :=
  let mapr_j_session := { mapr_j_session with bufferWrites := env.buffer_writes }
  let j_result := JObj.saveResult dataframe table_name id_field_path create_table bulk_insert
  { j_session := mapr_j_session
    calls := [NativeCall.setBufferWrites env.buffer_writes,
      NativeCall.jSave dataframe table_name id_field_path create_table bulk_insert]
    constructed := PyRet.pyDataFrame j_result wrapped
    ret := PyRet.pyNone }

/-- `insertToMapRDB(dataframe, table_name, id_field_path=default_id_field,
create_table=False, bulk_insert=False)`: identical body to `saveToMapRDB`
except that the native insert entry point is invoked. -/
def insertToMapRDB (env : ClosureEnv) (mapr_j_session : MapRDBJavaSession) (wrapped : String)
    (dataframe : JObj) (table_name : String)
    (id_field_path : String := env.default_id_field)
    (create_table : Bool := false) (bulk_insert : Bool := false) : WriteOutcome :=
  let mapr_j_session := { mapr_j_session with bufferWrites := env.buffer_writes }
  let j_result := JObj.insertResult dataframe table_name id_field_path create_table bulk_insert
  { j_session := mapr_j_session
    calls := [NativeCall.setBufferWrites env.buffer_writes,
      NativeCall.jInsert dataframe table_name id_field_path create_table bulk_insert]
    constructed := PyRet.pyDataFrame j_result wrapped
    ret := PyRet.pyNone }

/-- An attribute value sitting on the session handle: one of the three
closures attached by `mapr_session_patch` (each carrying its captured
environment), or any pre-existing attribute of the session. -/
inductive SessionAttr where
  | loadCap (env : ClosureEnv)
  | saveCap (env : ClosureEnv)
  | insertCap (env : ClosureEnv)
  | other (tag : String)
  deriving DecidableEq

/-- The pyspark session handle, seen as its attribute table. -/
abbrev Session := String → Option SessionAttr

/-- Python attribute assignment `obj.name = value`: an unconditional update
of the attribute table, with no existence check on `name`. -/
def setattr (s : Session) (name : String) (v : SessionAttr) : Session :=
  fun n => if n = name then some v else s n

/-- `mapr_session_patch(original_session, wrapped, gw, default_sample_size=1000.0,
default_id_field="_id", buffer_writes=True)`: captures the defaults in the
closure environment and assigns the three capabilities onto the session
handle in source order (`loadFromMapRDB`, then `saveToMapRDB`, then
`insertToMapRDB`).  The local helper `set_buffer_writes` is defined but never
assigned onto the session handle. -/
def mapr_session_patch (original_session : Session)
    (default_sample_size : ℚ := 1000) (default_id_field : String := "_id")
    (buffer_writes : Bool := true) : Session :=
  let env : ClosureEnv :=
    { default_sample_size := default_sample_size
      default_id_field := default_id_field
      buffer_writes := buffer_writes }
  let s1 := setattr original_session "loadFromMapRDB" (SessionAttr.loadCap env)
  let s2 := setattr s1 "saveToMapRDB" (SessionAttr.saveCap env)
  setattr s2 "insertToMapRDB" (SessionAttr.insertCap env)

/-- Errors raised by the py4j bridge / native connector, opaque to the adapter. -/
abbrev JError := String

/-- The fallible face of the bridge as the adapter uses it: resolving the
connector class (`java_import`), constructing `MapRDBJavaSession`, and each
native entry point may raise.  The adapter contains no handler, so in this
embedding its operations thread `Except` without inspecting the error. -/
structure Bridge where
  classResolution : Except JError Unit
  jSessionCtor : Except JError MapRDBJavaSession
  jSetBufferWrites : Bool → Except JError Unit
  jSave : JObj → String → String → Bool → Bool → Except JError JObj
  jInsert : JObj → String → String → Bool → Bool → Except JError JObj
  jLoad : DataFrameReader → Except JError PyDataFrame

/-- `loadFromMapRDB` with the bridge's fallibility explicit: the configured
reader is handed to the native load, whose error (if any) is the call's
error. -/
def loadFromMapRDBExc (B : Bridge) (env : ClosureEnv) (table_name : String)
    (schema : Option Schema := none) (sample_size : ℚ := env.default_sample_size) :
    Except JError PyDataFrame :=
  B.jLoad (loadReader env table_name schema sample_size)

/-- `saveToMapRDB` with the bridge's fallibility explicit: `setBufferWrites`
then the native save, each propagating its error unmodified; on success the
wrapper is built and dropped and the call returns `None`. -/
def saveToMapRDBExc (B : Bridge) (env : ClosureEnv) (wrapped : String) (dataframe : JObj)
    (table_name : String) (id_field_path : String := env.default_id_field)
    (create_table : Bool := false) (bulk_insert : Bool := false) : Except JError PyRet := do
  let _ ← B.jSetBufferWrites env.buffer_writes
  let j_result ← B.jSave dataframe table_name id_field_path create_table bulk_insert
  let _wrapper := PyRet.pyDataFrame j_result wrapped
  pure PyRet.pyNone

/-- `insertToMapRDB` with the bridge's fallibility explicit. -/
def insertToMapRDBExc (B : Bridge) (env : ClosureEnv) (wrapped : String) (dataframe : JObj)
    (table_name : String) (id_field_path : String := env.default_id_field)
    (create_table : Bool := false) (bulk_insert : Bool := false) : Except JError PyRet := do
  let _ ← B.jSetBufferWrites env.buffer_writes
  let j_result ← B.jInsert dataframe table_name id_field_path create_table bulk_insert
  let _wrapper := PyRet.pyDataFrame j_result wrapped
  pure PyRet.pyNone

/-- `mapr_session_patch` with the bridge's fallibility explicit: class
resolution (`java_import`) and native construction happen before any
attribute assignment, and their errors propagate uncaught. -/
def mapr_session_patchExc (B : Bridge) (original_session : Session)
    (default_sample_size : ℚ := 1000) (default_id_field : String := "_id")
    (buffer_writes : Bool := true) : Except JError Session := do
  let _ ← B.classResolution
  let _mapr_j_session ← B.jSessionCtor
  pure (mapr_session_patch original_session default_sample_size default_id_field buffer_writes)

/-- A concrete bridge whose class resolution succeeds but whose native
construction, load and write entry points fail, used to instantiate the
error-propagation theorem on explicit inputs. -/
def mixedBridge : Bridge :=
  { classResolution := Except.ok ()
    jSessionCtor := Except.error "ctor failed"
    jSetBufferWrites := fun _ => Except.ok ()
    jSave := fun _ _ _ _ _ => Except.error "save failed"
    jInsert := fun _ _ _ _ _ => Except.error "insert failed"
    jLoad := fun _ => Except.error "load failed" }

/-- Helper: folding any sequence of `set_buffer_writes` calls over the
captured environment leaves it unchanged, since each call only binds a
function-local variable. -/
theorem foldl_set_buffer_writes (env : ClosureEnv) (bs : List Bool) :
    bs.foldl set_buffer_writes env = env := by
  induction bs generalizing env with
  | nil => rfl
  | cons b bs ih => exact ih env

/-- C1: for every table name, `loadFromMapRDB` builds a format-based reader
holding exactly the three options `tableName`, `sampleSize` (the call-time
argument, which defaults to the captured default sample size) and
`bufferWrites` (the captured flag), applies the schema when one is supplied,
and returns the result of `.load()` on that reader. -/
theorem loadFromMapRDB_spec (env : ClosureEnv) (table_name : String)
    (schema : Option Schema) (sample_size : ℚ) :
    loadFromMapRDB env table_name schema sample_size =
      DataFrameReader.load
        { fmt := some "com.mapr.db.spark.sql"
          options := [("tableName", OptVal.str table_name),
            ("sampleSize", OptVal.num sample_size),
            ("bufferWrites", OptVal.bool env.buffer_writes)]
          schema := schema } := by
  cases schema <;> rfl

/-- C2: with no identifier field path, `saveToMapRDB` and `insertToMapRDB`
pass the captured default identifier field to the native write, with
create-table and bulk-insert both defaulting to `false`; an explicit
identifier field path is passed through instead; and the environment
captured under the construction defaults has `"_id"` as that default. -/
theorem save_insert_default_resolution (env : ClosureEnv) (js : MapRDBJavaSession)
    (wrapped : String) (df : JObj) (t idf : String) (ct bi : Bool) (s : Session) :
    (saveToMapRDB env js wrapped df t).calls =
      [NativeCall.setBufferWrites env.buffer_writes,
        NativeCall.jSave df t env.default_id_field false false] ∧
    (saveToMapRDB env js wrapped df t idf ct bi).calls =
      [NativeCall.setBufferWrites env.buffer_writes, NativeCall.jSave df t idf ct bi] ∧
    (insertToMapRDB env js wrapped df t).calls =
      [NativeCall.setBufferWrites env.buffer_writes,
        NativeCall.jInsert df t env.default_id_field false false] ∧
    (insertToMapRDB env js wrapped df t idf ct bi).calls =
      [NativeCall.setBufferWrites env.buffer_writes, NativeCall.jInsert df t idf ct bi] ∧
    (mapr_session_patch s) "saveToMapRDB" = some (SessionAttr.saveCap ⟨1000, "_id", true⟩) :=
  ⟨rfl, rfl, rfl, rfl, rfl⟩

/-- C3: in every invocation of `saveToMapRDB` or `insertToMapRDB`, any native
write call in the trace is strictly preceded by the push of the captured
buffer-writes flag into the native connector. -/
theorem buffering_push_precedes_write (env : ClosureEnv) (js : MapRDBJavaSession)
    (wrapped : String) (df : JObj) (t idf : String) (ct bi : Bool) (i : ℕ) (c : NativeCall) :
    ((saveToMapRDB env js wrapped df t idf ct bi).calls.get? i = some c →
      c.isWriteCall = true → ∃ j, j < i ∧
        (saveToMapRDB env js wrapped df t idf ct bi).calls.get? j =
          some (NativeCall.setBufferWrites env.buffer_writes)) ∧
    ((insertToMapRDB env js wrapped df t idf ct bi).calls.get? i = some c →
      c.isWriteCall = true → ∃ j, j < i ∧
        (insertToMapRDB env js wrapped df t idf ct bi).calls.get? j =
          some (NativeCall.setBufferWrites env.buffer_writes)) := by
  constructor <;>
  · intro hc hw
    refine ⟨0, ?_, rfl⟩
    cases i with
    | zero =>
      simp only [saveToMapRDB, insertToMapRDB, List.get?] at hc
      rw [← Option.some.injEq] at hc
      simp only [Option.some.injEq] at hc
      rw [← hc] at hw
      simp [NativeCall.isWriteCall] at hw
    | succ n => exact Nat.succ_pos n

/-- C3 witness at a concrete invocation: the native save sits at index 1 of
the trace and the buffering push precedes it. -/
theorem buffering_push_precedes_write_witness :
    ∃ j, j < 1 ∧
      (saveToMapRDB ⟨1000, "_id", true⟩ ⟨false⟩ "ctx" (JObj.jdf "d") "/t" "_id"
          false false).calls.get? j = some (NativeCall.setBufferWrites true) :=
  (buffering_push_precedes_write ⟨1000, "_id", true⟩ ⟨false⟩ "ctx" (JObj.jdf "d") "/t"
      "_id" false false 1 (NativeCall.jSave (JObj.jdf "d") "/t" "_id" false false)).1 rfl rfl

/-- C4: the code contradicts the claim: after `set_buffer_writes(False)`
against an adapter constructed with the default `buffer_writes=True`, the
next save still pushes `True` into the native connector, because the setter
body only binds a function-local variable; the setter is moreover never
attached onto the session handle. -/
theorem set_buffer_writes_has_no_effect :
    (set_buffer_writes ⟨1000, "_id", true⟩ false).buffer_writes = true ∧
    (saveToMapRDB (set_buffer_writes ⟨1000, "_id", true⟩ false) ⟨true⟩ "ctx"
        (JObj.jdf "d") "/t" "_id" false false).calls.get? 0 =
      some (NativeCall.setBufferWrites true) ∧
    (mapr_session_patch (fun _ => none) 1000 "_id" true) "set_buffer_writes" = none :=
  ⟨rfl, rfl, rfl⟩

/-- C5: both write capabilities construct the dataframe wrapper around the
native call result and then discard it: the Python call returns `None`. -/
theorem save_insert_discard_result (env : ClosureEnv) (js : MapRDBJavaSession)
    (wrapped : String) (df : JObj) (t idf : String) (ct bi : Bool) :
    (saveToMapRDB env js wrapped df t idf ct bi).constructed =
      PyRet.pyDataFrame (JObj.saveResult df t idf ct bi) wrapped ∧
    (saveToMapRDB env js wrapped df t idf ct bi).ret = PyRet.pyNone ∧
    (insertToMapRDB env js wrapped df t idf ct bi).constructed =
      PyRet.pyDataFrame (JObj.insertResult df t idf ct bi) wrapped ∧
    (insertToMapRDB env js wrapped df t idf ct bi).ret = PyRet.pyNone :=
  ⟨rfl, rfl, rfl, rfl⟩

/-- C6: adapter construction attaches exactly the three documented
capabilities (each carrying the captured environment), and leaves every
other attribute of the session handle unchanged. -/
theorem mapr_session_patch_frame (s : Session) (dss : ℚ) (dif : String) (bw : Bool) :
    (mapr_session_patch s dss dif bw) "loadFromMapRDB" =
      some (SessionAttr.loadCap ⟨dss, dif, bw⟩) ∧
    (mapr_session_patch s dss dif bw) "saveToMapRDB" =
      some (SessionAttr.saveCap ⟨dss, dif, bw⟩) ∧
    (mapr_session_patch s dss dif bw) "insertToMapRDB" =
      some (SessionAttr.insertCap ⟨dss, dif, bw⟩) ∧
    ∀ name, name ≠ "loadFromMapRDB" → name ≠ "saveToMapRDB" → name ≠ "insertToMapRDB" →
      (mapr_session_patch s dss dif bw) name = s name := by
  refine ⟨rfl, rfl, rfl, ?_⟩
  intro name h1 h2 h3
  simp [mapr_session_patch, setattr, h1, h2, h3]

/-- C6 witness: patching a session that maps every name to a marker leaves
the unrelated attribute `foo` exactly as it was. -/
theorem mapr_session_patch_frame_witness :
    (mapr_session_patch (fun _ => some (SessionAttr.other "x")) 1000 "_id" true) "foo" =
      some (SessionAttr.other "x") :=
  ((mapr_session_patch_frame (fun _ => some (SessionAttr.other "x")) 1000 "_id"
      true).2.2.2 "foo" (by decide) (by decide) (by decide)).trans rfl

/-- C7: every failure of the bridge layer — class resolution, native
construction, native load, the buffering push, or a native write — surfaces
from the adapter operation as exactly the bridge's error, unmodified. -/
theorem errors_propagate_unmodified (B : Bridge) (env : ClosureEnv) (s : Session)
    (wrapped : String) (df : JObj) (t idf : String) (ct bi : Bool)
    (schema : Option Schema) (ss dss : ℚ) (dif : String) (bw : Bool) (e : JError) :
    (B.jLoad (loadReader env t schema ss) = Except.error e →
      loadFromMapRDBExc B env t schema ss = Except.error e) ∧
    (B.jSetBufferWrites env.buffer_writes = Except.error e →
      saveToMapRDBExc B env wrapped df t idf ct bi = Except.error e ∧
      insertToMapRDBExc B env wrapped df t idf ct bi = Except.error e) ∧
    (∀ u, B.jSetBufferWrites env.buffer_writes = Except.ok u →
      B.jSave df t idf ct bi = Except.error e →
      saveToMapRDBExc B env wrapped df t idf ct bi = Except.error e) ∧
    (∀ u, B.jSetBufferWrites env.buffer_writes = Except.ok u →
      B.jInsert df t idf ct bi = Except.error e →
      insertToMapRDBExc B env wrapped df t idf ct bi = Except.error e) ∧
    (B.classResolution = Except.error e →
      mapr_session_patchExc B s dss dif bw = Except.error e) ∧
    (∀ u, B.classResolution = Except.ok u → B.jSessionCtor = Except.error e →
      mapr_session_patchExc B s dss dif bw = Except.error e) := by
  refine ⟨?_, ?_, ?_, ?_, ?_, ?_⟩
  · intro h
    simp [loadFromMapRDBExc, h]
  · intro h
    constructor <;> simp only [saveToMapRDBExc, insertToMapRDBExc, h] <;> rfl
  · intro u h1 h2
    simp only [saveToMapRDBExc, h1, h2]
    rfl
  · intro u h1 h2
    simp only [insertToMapRDBExc, h1, h2]
    rfl
  · intro h
    simp only [mapr_session_patchExc, h]
    rfl
  · intro u h1 h2
    simp only [mapr_session_patchExc, h1, h2]
    rfl

/-- C7 witness at a concrete bridge: load, save and construction errors of
the bridge come back verbatim from the adapter operations. -/
theorem errors_propagate_unmodified_witness :
    loadFromMapRDBExc mixedBridge ⟨1000, "_id", true⟩ "/t" none 1000 =
      Except.error "load failed" ∧
    saveToMapRDBExc mixedBridge ⟨1000, "_id", true⟩ "ctx" (JObj.jdf "d") "/t" "_id"
      false false = Except.error "save failed" ∧
    mapr_session_patchExc mixedBridge (fun _ => none) 1000 "_id" true =
      Except.error "ctor failed" := by
  refine ⟨?_, ?_, ?_⟩
  · exact (errors_propagate_unmodified mixedBridge ⟨1000, "_id", true⟩ (fun _ => none) "ctx"
      (JObj.jdf "d") "/t" "_id" false false none 1000 1000 "_id" true "load failed").1 rfl
  · exact (errors_propagate_unmodified mixedBridge ⟨1000, "_id", true⟩ (fun _ => none) "ctx"
      (JObj.jdf "d") "/t" "_id" false false none 1000 1000 "_id" true
      "save failed").2.2.1 () rfl rfl
  · exact (errors_propagate_unmodified mixedBridge ⟨1000, "_id", true⟩ (fun _ => none) "ctx"
      (JObj.jdf "d") "/t" "_id" false false none 1000 1000 "_id" true
      "ctor failed").2.2.2.2.2 () rfl rfl

/-- C8: re-running adapter construction on an already patched session
succeeds, fully replaces the three capability attributes with ones carrying
the new parameters, and equals patching the original session directly. -/
theorem mapr_session_patch_overwrites (s : Session) (d1 d2 : ℚ) (i1 i2 : String)
    (b1 b2 : Bool) :
    mapr_session_patch (mapr_session_patch s d1 i1 b1) d2 i2 b2 =
      mapr_session_patch s d2 i2 b2 ∧
    (mapr_session_patch (mapr_session_patch s d1 i1 b1) d2 i2 b2) "saveToMapRDB" =
      some (SessionAttr.saveCap ⟨d2, i2, b2⟩) := by
  constructor
  · funext n
    simp only [mapr_session_patch, setattr]
    split_ifs <;> rfl
  · rfl

/-- C9: on every argument tuple, `insertToMapRDB` produces the same connector
state, the same discarded wrapper and the same `None` return as
`saveToMapRDB`, and its trace is the save trace with the save entry point
renamed to the insert entry point. -/
theorem insert_mirrors_save (env : ClosureEnv) (js : MapRDBJavaSession) (wrapped : String)
    (df : JObj) (t idf : String) (ct bi : Bool) :
    (insertToMapRDB env js wrapped df t idf ct bi).j_session =
      (saveToMapRDB env js wrapped df t idf ct bi).j_session ∧
    (insertToMapRDB env js wrapped df t idf ct bi).ret =
      (saveToMapRDB env js wrapped df t idf ct bi).ret ∧
    (insertToMapRDB env js wrapped df t idf ct bi).calls =
      (saveToMapRDB env js wrapped df t idf ct bi).calls.map NativeCall.asInsertCall ∧
    (insertToMapRDB env js wrapped df t idf ct bi).constructed =
      PyRet.asInsertRet (saveToMapRDB env js wrapped df t idf ct bi).constructed :=
  ⟨rfl, rfl, rfl, rfl⟩

/-- C10: no sequence of `set_buffer_writes` calls changes the captured
environment, the setter is not among the attached attributes, and the
buffering value pushed by every save and insert and placed into every load's
reader options is exactly the construction-time `buffer_writes`. -/
theorem buffer_writes_invariant (env : ClosureEnv) (bs : List Bool) (s : Session)
    (js : MapRDBJavaSession) (wrapped : String) (df : JObj) (t idf : String) (ct bi : Bool)
    (schema : Option Schema) (ss dss : ℚ) (dif : String) (bw : Bool) :
    bs.foldl set_buffer_writes env = env ∧
    (mapr_session_patch s dss dif bw) "set_buffer_writes" = s "set_buffer_writes" ∧
    saveToMapRDB (bs.foldl set_buffer_writes env) js wrapped df t idf ct bi =
      saveToMapRDB env js wrapped df t idf ct bi ∧
    insertToMapRDB (bs.foldl set_buffer_writes env) js wrapped df t idf ct bi =
      insertToMapRDB env js wrapped df t idf ct bi ∧
    loadFromMapRDB (bs.foldl set_buffer_writes env) t schema ss =
      loadFromMapRDB env t schema ss ∧
    (saveToMapRDB env js wrapped df t idf ct bi).calls.get? 0 =
      some (NativeCall.setBufferWrites env.buffer_writes) ∧
    (insertToMapRDB env js wrapped df t idf ct bi).calls.get? 0 =
      some (NativeCall.setBufferWrites env.buffer_writes) ∧
    (loadReader env t schema ss).options.get? 2 =
      some ("bufferWrites", OptVal.bool env.buffer_writes) := by
  have hf := foldl_set_buffer_writes env bs
  refine ⟨hf, rfl, by rw [hf], by rw [hf], by rw [hf], rfl, rfl, ?_⟩
  cases schema <;> rfl
